import Mathlib

/-!
Shallow embedding of the Library Core of the `library` repository
(`src/library_management/src/{book,member,database,library}.py`).

Modelling conventions:
* Python `int` fields become `Int`, monetary amounts (`total_fines`, fines)
  become `ℚ`, timestamps become `Nat` (seconds since the epoch).
* In-place mutation becomes explicit state passing: a Python method that
  mutates `self` and returns `r` becomes a Lean function returning `r × State`.
* The SQLite store becomes an explicit `StoreState`; writes that the Python
  code guards with `try/except sqlite3.Error` take an extra `ok : Bool`
  oracle standing for "the durable write succeeded" (the code turns any
  such error into a `False` return).  Inserts guarded only by
  `except sqlite3.IntegrityError` are modelled as failing exactly on a
  duplicate primary key.
* Success-message formatting (titles, dates, `$%.2f`) is abstracted to fixed
  strings; the failure messages the control flow produces are kept verbatim.
-/

namespace LibraryMgmt

/-- `book.py`: the `Book` class.  `created_at` is `datetime.now()` at
construction time. -/
structure Book where
  isbn : String
  title : String
  author : String
  publisher : String
  publication_year : Int
  total_copies : Int
  available_copies : Int
  created_at : Nat
  deriving Repr, DecidableEq

/-- `Book.__init__`: `available_copies` starts at `total_copies`. -/
def Book.init (now : Nat) (isbn title author publisher : String)
    (publication_year : Int) (total_copies : Int) : Book :=
  { isbn := isbn, title := title, author := author, publisher := publisher
    publication_year := publication_year, total_copies := total_copies
    available_copies := total_copies, created_at := now }

/-- `Book.borrow_copy`: decrement `available_copies` if positive, else fail
with no side effect. -/
def Book.borrow_copy (b : Book) : Bool × Book :=
  if 0 < b.available_copies then
    (true, { b with available_copies := b.available_copies - 1 })
  else
    (false, b)

/-- `Book.return_copy`: increment `available_copies` if below
`total_copies`, else fail with no side effect. -/
def Book.return_copy (b : Book) : Bool × Book :=
  if b.available_copies < b.total_copies then
    (true, { b with available_copies := b.available_copies + 1 })
  else
    (false, b)

/-- `member.py`: the `Member` class.  `borrowed_books` is a Python list of
ISBN strings; `membership_date` is `datetime.now()` at construction time. -/
structure Member where
  member_id : String
  name : String
  email : String
  phone : String
  address : String
  membership_date : Nat
  is_active : Bool
  borrowed_books : List String
  total_fines : ℚ
  deriving Repr, DecidableEq

/-- `Member.__init__`: starts active, with no borrowed books and no fines. -/
def Member.init (now : Nat) (member_id name email phone address : String) :
    Member :=
  { member_id := member_id, name := name, email := email, phone := phone
    address := address, membership_date := now, is_active := true
    borrowed_books := [], total_fines := 0 }

/-- `Member.add_borrowed_book`: append unless already present (idempotent). -/
def Member.add_borrowed_book (m : Member) (book_id : String) : Member :=
  if book_id ∈ m.borrowed_books then m
  else { m with borrowed_books := m.borrowed_books ++ [book_id] }

/-- `Member.remove_borrowed_book`: `list.remove` drops the first occurrence;
returns whether the book was present. -/
def Member.remove_borrowed_book (m : Member) (book_id : String) :
    Bool × Member :=
  if book_id ∈ m.borrowed_books then
    (true, { m with borrowed_books := m.borrowed_books.erase book_id })
  else
    (false, m)

/-- `Member.get_borrowed_count`. -/
def Member.get_borrowed_count (m : Member) : Nat := m.borrowed_books.length

/-- `Member.add_fine`: unconditional increase. -/
def Member.add_fine (m : Member) (amount : ℚ) : Member :=
  { m with total_fines := m.total_fines + amount }

/-- `Member.pay_fine`: succeeds (and subtracts) only if
`amount ≤ total_fines`. -/
def Member.pay_fine (m : Member) (amount : ℚ) : Bool × Member :=
  if amount ≤ m.total_fines then
    (true, { m with total_fines := m.total_fines - amount })
  else
    (false, m)

/-! ## The Record Store (`database.py`) -/

/-- A row of the `books` table. -/
structure BookRow where
  isbn : String
  title : String
  author : String
  publisher : String
  publication_year : Int
  total_copies : Int
  available_copies : Int
  deriving Repr, DecidableEq

/-- A row of the `members` table. -/
structure MemberRow where
  member_id : String
  name : String
  email : String
  phone : String
  address : String
  is_active : Bool
  total_fines : ℚ
  deriving Repr, DecidableEq

/-- A row of the `borrowing_records` table.  `record_id` is the
auto-increment primary key; `borrow_date` defaults to the write time;
`return_date = none` marks an open loan; `fine_paid` defaults to `0.0`. -/
structure BorrowRecord where
  record_id : Nat
  member_id : String
  isbn : String
  borrow_date : Nat
  due_date : Nat
  return_date : Option Nat
  fine_paid : ℚ
  deriving Repr, DecidableEq

/-- The durable state behind the `Database` class: the three tables and the
next auto-increment id for `borrowing_records`. -/
structure StoreState where
  book_rows : List BookRow
  member_rows : List MemberRow
  records : List BorrowRecord
  next_record_id : Nat
  deriving Repr, DecidableEq

/-- A freshly initialised (empty) store; SQLite auto-increment ids start
at 1. -/
def StoreState.empty : StoreState :=
  { book_rows := [], member_rows := [], records := [], next_record_id := 1 }

/-- `Database.add_book`: `INSERT INTO books ...`; fails exactly when the
primary key `isbn` already exists (`sqlite3.IntegrityError`). -/
def StoreState.add_book (db : StoreState) (row : BookRow) :
    Bool × StoreState :=
  if db.book_rows.any (fun b => b.isbn == row.isbn) then (false, db)
  else (true, { db with book_rows := db.book_rows ++ [row] })

/-- `Database.add_member`: `INSERT INTO members ...`; fails exactly when
the primary key `member_id` already exists. -/
def StoreState.add_member (db : StoreState) (row : MemberRow) :
    Bool × StoreState :=
  if db.member_rows.any (fun m => m.member_id == row.member_id) then
    (false, db)
  else (true, { db with member_rows := db.member_rows ++ [row] })

/-- `Database.record_borrowing`: `INSERT INTO borrowing_records (member_id,
isbn, due_date)`; `borrow_date` defaults to the current timestamp and
`return_date` to `NULL`.  Any `sqlite3.Error` is caught and turned into a
`False` return with no new row; the `ok` oracle stands for the absence of
such an error. -/
def StoreState.record_borrowing (db : StoreState) (ok : Bool)
    (member_id isbn : String) (now due_date : Nat) : Bool × StoreState :=
  if ok then
    (true,
      { db with
        records := db.records ++
          [{ record_id := db.next_record_id, member_id := member_id
             isbn := isbn, borrow_date := now, due_date := due_date
             return_date := none, fine_paid := 0 }]
        next_record_id := db.next_record_id + 1 })
  else (false, db)

/-- Does record `r` match the `WHERE member_id = ? AND isbn = ? AND
return_date IS NULL` clause? -/
def BorrowRecord.matchesOpen (r : BorrowRecord) (member_id isbn : String) :
    Bool :=
  r.member_id == member_id && r.isbn == isbn && r.return_date == none

/-- `Database.record_return`: `UPDATE borrowing_records SET return_date =
CURRENT_TIMESTAMP, fine_paid = ? WHERE member_id = ? AND isbn = ? AND
return_date IS NULL` — note the update hits EVERY open record of the pair
(no `LIMIT`).  `ok` is the store-failure oracle as in
`record_borrowing`. -/
def StoreState.record_return (db : StoreState) (ok : Bool)
    (member_id isbn : String) (fine_paid : ℚ) (now : Nat) :
    Bool × StoreState :=
  if ok then
    (true,
      { db with
        records := db.records.map (fun r =>
          if r.matchesOpen member_id isbn then
            { r with return_date := some now, fine_paid := fine_paid }
          else r) })
  else (false, db)

/-- The open records of a (member, isbn) pair, in table order. -/
def openRecordsFor (records : List BorrowRecord) (member_id isbn : String) :
    List BorrowRecord :=
  records.filter (fun r => r.matchesOpen member_id isbn)

/-- How many open records a (member, isbn) pair has. -/
def openCount (records : List BorrowRecord) (member_id isbn : String) : Nat :=
  (openRecordsFor records member_id isbn).length

/-- Row ordering used by `ORDER BY borrow_date DESC LIMIT 1`: `r` beats `b`
when its `borrow_date` is later; a tie on `borrow_date` is broken by the
auto-increment `record_id` (SQLite scans the table in rowid order). -/
def BorrowRecord.moreRecent (r b : BorrowRecord) : Bool :=
  b.borrow_date < r.borrow_date ||
    (b.borrow_date == r.borrow_date && b.record_id < r.record_id)

/-- Keep the more recent of an accumulator and the next row. -/
def pickMoreRecent (acc : Option BorrowRecord) (r : BorrowRecord) :
    Option BorrowRecord :=
  match acc with
  | none => some r
  | some b => if r.moreRecent b then some r else some b

/-- `SELECT due_date FROM borrowing_records WHERE ... AND return_date IS
NULL ORDER BY borrow_date DESC LIMIT 1` — the most recent open record of a
pair, if any. -/
def mostRecentOpen (records : List BorrowRecord) (member_id isbn : String) :
    Option BorrowRecord :=
  (openRecordsFor records member_id isbn).foldl pickMoreRecent none

/-! ## The Library Core (`library.py`) -/

/-- `Library.BORROWING_PERIOD_DAYS = 14`. -/
def BORROWING_PERIOD_DAYS : Nat := 14

/-- `Library.DAILY_FINE = 1.0` (fine per day for overdue books). -/
def DAILY_FINE : ℚ := 1

/-- `timedelta(days=1)` in seconds. -/
def secondsPerDay : Nat := 86400

/-- The in-memory `Library` state: the two dictionaries (`self.books`,
`self.members`) and the durable store. -/
structure LibraryState where
  books : String → Option Book
  members : String → Option Member
  db : StoreState

/-- `Library._load_from_db` together with `Database.init_db` on a given
store: every `books` row becomes a `Book` (with `available_copies`
restored from the row) and every `members` row becomes a `Member` (with
`is_active` and `total_fines` restored from the row — `borrowed_books` is
whatever `Member.__init__` left there). -/
def loadFromDb (now : Nat) (db : StoreState) : LibraryState :=
  { books := fun isbn =>
      (db.book_rows.find? (fun r => r.isbn == isbn)).map (fun r =>
        { Book.init now r.isbn r.title r.author r.publisher
            r.publication_year r.total_copies with
          available_copies := r.available_copies })
    members := fun member_id =>
      (db.member_rows.find? (fun r => r.member_id == member_id)).map (fun r =>
        { Member.init now r.member_id r.name r.email r.phone r.address with
          is_active := r.is_active, total_fines := r.total_fines })
    db := db }

/-- A library freshly initialised over an empty store. -/
def LibraryState.initial : LibraryState := loadFromDb 0 StoreState.empty

/-- `Library.add_book`: fail if the isbn is cached; otherwise durable
insert first, and only on store success create the in-memory `Book`. -/
def LibraryState.add_book (s : LibraryState) (now : Nat)
    (isbn title author publisher : String) (publication_year : Int)
    (total_copies : Int) : Bool × LibraryState :=
  if (s.books isbn).isSome then (false, s)
  else
    let (ok, db1) := s.db.add_book
      { isbn := isbn, title := title, author := author
        publisher := publisher, publication_year := publication_year
        total_copies := total_copies, available_copies := total_copies }
    if ok then
      (true,
        { s with
          db := db1
          books := fun k =>
            if k = isbn then
              some (Book.init now isbn title author publisher
                publication_year total_copies)
            else s.books k })
    else (false, s)

/-- `Library.add_member`: same store-then-cache rule keyed by
`member_id`. -/
def LibraryState.add_member (s : LibraryState) (now : Nat)
    (member_id name email phone address : String) : Bool × LibraryState :=
  if (s.members member_id).isSome then (false, s)
  else
    let (ok, db1) := s.db.add_member
      { member_id := member_id, name := name, email := email
        phone := phone, address := address, is_active := true
        total_fines := 0 }
    if ok then
      (true,
        { s with
          db := db1
          members := fun k =>
            if k = member_id then
              some (Member.init now member_id name email phone address)
            else s.members k })
    else (false, s)

/-- `Library._calculate_fine`: read the most recent open record of the
pair; no record ⇒ `0.0`; overdue ⇒ whole days overdue (Python
`timedelta.days`, i.e. truncating division of the positive elapsed time)
times `DAILY_FINE`; not yet due ⇒ `0.0`. -/
def calculateFine (records : List BorrowRecord) (member_id isbn : String)
    (now : Nat) : ℚ :=
  match mostRecentOpen records member_id isbn with
  | none => 0
  | some r =>
      if r.due_date < now then
        (((now - r.due_date) / secondsPerDay : Nat) : ℚ) * DAILY_FINE
      else 0

/-- `Library.borrow_book` with the store-failure oracle `dbOk` for the
`record_borrowing` write.  Returns `(success, message, new state)`. -/
def LibraryState.borrow_book (s : LibraryState) (dbOk : Bool) (now : Nat)
    (member_id isbn : String) : Bool × String × LibraryState :=
  match s.members member_id with
  | none => (false, "Member not found", s)
  | some member =>
    match s.books isbn with
    | none => (false, "Book not found", s)
    | some book =>
      if !member.is_active then (false, "Member is not active", s)
      else
        let (got, book1) := book.borrow_copy
        if !got then (false, "Book not available", s)
        else
          let member1 := member.add_borrowed_book isbn
          let due_date := now + BORROWING_PERIOD_DAYS * secondsPerDay
          let (wok, db1) :=
            s.db.record_borrowing dbOk member_id isbn now due_date
          if wok then
            (true, "Book borrowed successfully",
              { s with
                db := db1
                books := fun k => if k = isbn then some book1 else s.books k
                members := fun k =>
                  if k = member_id then some member1 else s.members k })
          else
            let (_, book2) := book1.return_copy
            let (_, member2) := member1.remove_borrowed_book isbn
            (false, "Failed to record borrowing",
              { s with
                db := db1
                books := fun k => if k = isbn then some book2 else s.books k
                members := fun k =>
                  if k = member_id then some member2 else s.members k })

/-- `Library.return_book` with the store-failure oracle `dbOk` for the
`record_return` write.  On store failure the in-memory mutations are NOT
reverted. -/
def LibraryState.return_book (s : LibraryState) (dbOk : Bool) (now : Nat)
    (member_id isbn : String) : Bool × String × LibraryState :=
  match s.members member_id with
  | none => (false, "Member not found", s)
  | some member =>
    match s.books isbn with
    | none => (false, "Book not found", s)
    | some book =>
      let (had, member1) := member.remove_borrowed_book isbn
      if !had then (false, "This book was not borrowed by this member", s)
      else
        let (_, book1) := book.return_copy
        let fine := calculateFine s.db.records member_id isbn now
        let member2 := if 0 < fine then member1.add_fine fine else member1
        let (wok, db1) := s.db.record_return dbOk member_id isbn fine now
        let s1 :=
          { s with
            db := db1
            books := fun k => if k = isbn then some book1 else s.books k
            members := fun k =>
              if k = member_id then some member2 else s.members k }
        if wok then
          (true,
            if 0 < fine then "Book returned successfully. Fine applied"
            else "Book returned successfully", s1)
        else (false, "Failed to record return", s1)

/-! ## Sequences of entity-level operations -/

/-- A call to one of the two mutating `Book` operations. -/
inductive BookOp
  | borrow
  | ret
  deriving Repr, DecidableEq

/-- Apply one `Book` operation, keeping only the state (the Python call
mutates `self` and returns a `bool` the sequence ignores). -/
def applyBookOp (b : Book) : BookOp → Book
  | .borrow => b.borrow_copy.2
  | .ret => b.return_copy.2

/-- Apply a sequence of `Book` operations in order. -/
def applyBookOps (b : Book) (ops : List BookOp) : Book :=
  ops.foldl applyBookOp b

lemma applyBookOp_total_copies (b : Book) (op : BookOp) :
    (applyBookOp b op).total_copies = b.total_copies := by
  cases op <;>
    simp only [applyBookOp, Book.borrow_copy, Book.return_copy] <;>
    split <;> rfl

lemma applyBookOp_invariant (b : Book) (op : BookOp)
    (h0 : 0 ≤ b.available_copies)
    (h1 : b.available_copies ≤ b.total_copies) :
    0 ≤ (applyBookOp b op).available_copies ∧
      (applyBookOp b op).available_copies ≤ (applyBookOp b op).total_copies := by
  cases op <;>
    simp only [applyBookOp, Book.borrow_copy, Book.return_copy] <;>
    split <;> simp_all <;> omega

lemma applyBookOps_invariant (ops : List BookOp) (b : Book)
    (h0 : 0 ≤ b.available_copies)
    (h1 : b.available_copies ≤ b.total_copies) :
    0 ≤ (applyBookOps b ops).available_copies ∧
      (applyBookOps b ops).available_copies ≤
        (applyBookOps b ops).total_copies := by
  induction ops generalizing b with
  | nil => exact ⟨h0, h1⟩
  | cons op ops ih =>
      have h := applyBookOp_invariant b op h0 h1
      exact ih (applyBookOp b op) h.1 h.2

/-- C3: starting from any `Book` created with `total_copies ≥ 0`, every
sequence of `borrow_copy`/`return_copy` calls keeps
`0 ≤ available_copies ≤ total_copies`; moreover `borrow_copy` at
`available_copies = 0` and `return_copy` at
`available_copies = total_copies` both fail and leave the book
unchanged. -/
theorem book_copy_invariant (now : Nat)
    (isbn title author publisher : String) (year : Int) (copies : Int)
    (hc : 0 ≤ copies) (ops : List BookOp) (b : Book) :
    (0 ≤ (applyBookOps (Book.init now isbn title author publisher year
        copies) ops).available_copies ∧
      (applyBookOps (Book.init now isbn title author publisher year
        copies) ops).available_copies ≤
      (applyBookOps (Book.init now isbn title author publisher year
        copies) ops).total_copies) ∧
    (b.available_copies = 0 → b.borrow_copy = (false, b)) ∧
    (b.available_copies = b.total_copies → b.return_copy = (false, b)) := by
  refine ⟨applyBookOps_invariant ops _ hc (le_refl copies), ?_, ?_⟩
  · intro h
    simp [Book.borrow_copy, h]
  · intro h
    simp [Book.return_copy, h]

/-- Witness for C3 at a concrete book and operation sequence. -/
theorem book_copy_invariant_witness :
    (0 ≤ (applyBookOps (Book.init 0 "B1" "T" "A" "P" 2020 2)
        [BookOp.borrow, BookOp.ret]).available_copies ∧
      (applyBookOps (Book.init 0 "B1" "T" "A" "P" 2020 2)
        [BookOp.borrow, BookOp.ret]).available_copies ≤
      (applyBookOps (Book.init 0 "B1" "T" "A" "P" 2020 2)
        [BookOp.borrow, BookOp.ret]).total_copies) ∧
    ((Book.init 0 "B2" "T" "A" "P" 2020 0).available_copies = 0 →
      (Book.init 0 "B2" "T" "A" "P" 2020 0).borrow_copy =
        (false, Book.init 0 "B2" "T" "A" "P" 2020 0)) ∧
    ((Book.init 0 "B2" "T" "A" "P" 2020 0).available_copies =
        (Book.init 0 "B2" "T" "A" "P" 2020 0).total_copies →
      (Book.init 0 "B2" "T" "A" "P" 2020 0).return_copy =
        (false, Book.init 0 "B2" "T" "A" "P" 2020 0)) :=
  book_copy_invariant 0 "B1" "T" "A" "P" 2020 2 (by decide)
    [BookOp.borrow, BookOp.ret] (Book.init 0 "B2" "T" "A" "P" 2020 0)

/-- C8: `pay_fine amount` succeeds and subtracts exactly `amount` iff
`amount ≤ total_fines`; on `amount > total_fines` it fails and leaves the
member unchanged. -/
theorem pay_fine_spec (m : Member) (amount : ℚ) :
    (((m.pay_fine amount).1 = true ∧
        (m.pay_fine amount).2.total_fines = m.total_fines - amount) ↔
      amount ≤ m.total_fines) ∧
    (m.total_fines < amount → m.pay_fine amount = (false, m)) := by
  constructor
  · constructor
    · intro h
      by_contra hlt
      simp [Member.pay_fine, hlt] at h
    · intro h
      simp [Member.pay_fine, h]
  · intro h
    have : ¬ amount ≤ m.total_fines := not_le.mpr h
    simp [Member.pay_fine, this]

/-- A concrete member used by witnesses: active, fines 5, holding "B1". -/
def memberW : Member :=
  { Member.init 0 "M1" "Alice" "a@x" "1" "Addr" with
    total_fines := 5, borrowed_books := ["B1"] }

/-- Witness for C8 at a concrete member and amount. -/
theorem pay_fine_spec_witness :
    (((memberW.pay_fine 3).1 = true ∧
        (memberW.pay_fine 3).2.total_fines = memberW.total_fines - 3) ↔
      (3 : ℚ) ≤ memberW.total_fines) ∧
    (memberW.total_fines < 3 → memberW.pay_fine 3 = (false, memberW)) :=
  pay_fine_spec memberW 3

/-! ## C4: the fine formula -/

/-- The fine formula in the spec's words: zero without an open record;
otherwise, past the due date, the whole elapsed overdue days times
`DAILY_FINE`, and zero before the due date.  The elapsed days are the
rational `(now - due_date) / 86400`; as that quantity is positive in the
overdue branch, `⌊·⌋` is exactly truncation toward zero. -/
def fineSpec (records : List BorrowRecord) (member_id isbn : String)
    (now : Nat) : ℚ :=
  match mostRecentOpen records member_id isbn with
  | none => 0
  | some r =>
      if r.due_date < now then
        ((⌊((now : ℚ) - (r.due_date : ℚ)) / (secondsPerDay : ℚ)⌋ : ℤ) : ℚ) *
          DAILY_FINE
      else 0

lemma floor_overdue_days (due now : Nat) (h : due ≤ now) :
    ⌊((now : ℚ) - (due : ℚ)) / (secondsPerDay : ℚ)⌋ =
      (((now - due) / secondsPerDay : Nat) : ℤ) := by
  rw [← Nat.cast_sub h]
  rw [← Int.natCast_floor_eq_floor
    (div_nonneg (Nat.cast_nonneg _) (Nat.cast_nonneg _))]
  rw [Nat.floor_div_eq_div]

/-- C4: `_calculate_fine` computes exactly the spec's formula: zero when
the pair has no open record or the most recent open record is not yet
due, and otherwise the whole (truncated, not rounded) number of elapsed
overdue days times the daily rate of 1.0. -/
theorem calculate_fine_correct (records : List BorrowRecord)
    (member_id isbn : String) (now : Nat) :
    calculateFine records member_id isbn now =
      fineSpec records member_id isbn now := by
  unfold calculateFine fineSpec
  cases h : mostRecentOpen records member_id isbn with
  | none => rfl
  | some r =>
      by_cases hd : r.due_date < now
      · simp only [hd, if_true]
        rw [floor_overdue_days r.due_date now hd.le]
        norm_cast
      · simp only [hd, if_false]

/-! ## C9: restart loses the in-memory loan sets -/

/-- C9: a library loaded from the store has every member's
`borrowed_books` empty — open borrowing records in the store are ignored
by `_load_from_db` — so right after a restart `return_book` on any pair
whose member and book rows are present fails with "This book was not
borrowed by this member" and changes nothing. -/
theorem load_loses_open_loans (now now2 : Nat) (db : StoreState)
    (dbOk : Bool) (member_id isbn : String) :
    (∀ m, (loadFromDb now db).members member_id = some m →
      m.borrowed_books = []) ∧
    (((loadFromDb now db).members member_id).isSome →
      ((loadFromDb now db).books isbn).isSome →
      (loadFromDb now db).return_book dbOk now2 member_id isbn =
        (false, "This book was not borrowed by this member",
          loadFromDb now db)) := by
  have hempty : ∀ m, (loadFromDb now db).members member_id = some m →
      m.borrowed_books = [] := by
    intro m hm
    simp only [loadFromDb, Option.map_eq_some'] at hm
    obtain ⟨row, _, rfl⟩ := hm
    rfl
  refine ⟨hempty, ?_⟩
  intro hmem hbook
  obtain ⟨m, hm⟩ := Option.isSome_iff_exists.mp hmem
  obtain ⟨b, hb⟩ := Option.isSome_iff_exists.mp hbook
  have hbb : m.borrowed_books = [] := hempty m hm
  simp [LibraryState.return_book, hm, hb, Member.remove_borrowed_book, hbb]

/-- A concrete store whose `borrowing_records` table holds an open loan of
"B1" by "M1", together with the matching member and book rows. -/
def storeW : StoreState :=
  { book_rows := [{ isbn := "B1", title := "T", author := "A"
                    publisher := "P", publication_year := 2020
                    total_copies := 2, available_copies := 1 }]
    member_rows := [{ member_id := "M1", name := "Alice", email := "a@x"
                      phone := "1", address := "Addr", is_active := true
                      total_fines := 0 }]
    records := [{ record_id := 1, member_id := "M1", isbn := "B1"
                  borrow_date := 10, due_date := 20, return_date := none
                  fine_paid := 0 }]
    next_record_id := 2 }

/-- Witness for C9: loading `storeW` (which has an open loan for
("M1", "B1")) and immediately returning fails as stated. -/
theorem load_loses_open_loans_witness :
    (∀ m, (loadFromDb 0 storeW).members "M1" = some m →
      m.borrowed_books = []) ∧
    (((loadFromDb 0 storeW).members "M1").isSome →
      ((loadFromDb 0 storeW).books "B1").isSome →
      (loadFromDb 0 storeW).return_book true 30 "M1" "B1" =
        (false, "This book was not borrowed by this member",
          loadFromDb 0 storeW)) :=
  load_loses_open_loans 0 30 storeW true "M1" "B1"

/-! ## C1: rollback on borrow-write failure -/

/-- A book "B1" with a single copy, all available. -/
def bookC1 : Book := Book.init 0 "B1" "T" "A" "P" 2020 1

/-- An active member "M1" who already holds "B1". -/
def memberC1 : Member :=
  { Member.init 0 "M1" "Alice" "a@x" "1" "Addr" with
    borrowed_books := ["B1"] }

/-- A library whose cache holds exactly `bookC1` and `memberC1`, over an
empty store. -/
def stateC1 : LibraryState :=
  { books := fun k => if k = "B1" then some bookC1 else none
    members := fun k => if k = "M1" then some memberC1 else none
    db := StoreState.empty }

/-- C1 fails as stated: in `stateC1` the member already holds "B1", every
in-memory check of `borrow_book` passes, and the durable write fails; the
operation does return "Failed to record borrowing" and restores
`available_copies`, but the rollback's `remove_borrowed_book` deletes
"B1" from `borrowed_books`, which therefore ends at `[]` instead of its
pre-call value `["B1"]`. -/
theorem borrow_rollback_counterexample :
    memberC1.is_active = true ∧
    0 < bookC1.available_copies ∧
    stateC1.members "M1" = some memberC1 ∧
    stateC1.books "B1" = some bookC1 ∧
    memberC1.borrowed_books = ["B1"] ∧
    (stateC1.borrow_book false 0 "M1" "B1").1 = false ∧
    (stateC1.borrow_book false 0 "M1" "B1").2.1 =
      "Failed to record borrowing" ∧
    ((stateC1.borrow_book false 0 "M1" "B1").2.2.books "B1").map
      Book.available_copies = some bookC1.available_copies ∧
    ((stateC1.borrow_book false 0 "M1" "B1").2.2.members "M1").map
      Member.borrowed_books = some [] ∧
    (some [] : Option (List String)) ≠ some ["B1"] := by
  refine ⟨rfl, by decide, rfl, rfl, rfl, rfl, rfl, rfl, rfl, by decide⟩

/-- C1 amended: when `borrow_book` passes all in-memory checks, the book's
counters are consistent, the member does **not** already hold the isbn,
and the durable write fails, the operation returns failure
"Failed to record borrowing" and restores the state exactly (the book's
`available_copies` and the member's `borrowed_books` included).  (When
the member already holds the isbn the rollback instead deletes it from
`borrowed_books`, as the counterexample shows.) -/
theorem borrow_rollback (s : LibraryState) (now : Nat)
    (member_id isbn : String) (member : Member) (book : Book)
    (hm : s.members member_id = some member)
    (hb : s.books isbn = some book)
    (hact : member.is_active = true)
    (havail : 0 < book.available_copies)
    (hle : book.available_copies ≤ book.total_copies)
    (hnot : isbn ∉ member.borrowed_books) :
    s.borrow_book false now member_id isbn =
      (false, "Failed to record borrowing", s) := by
  have h1 : book.borrow_copy =
      (true, { book with available_copies := book.available_copies - 1 }) := by
    simp [Book.borrow_copy, havail]
  have h2 : member.add_borrowed_book isbn =
      { member with
        borrowed_books := member.borrowed_books ++ [isbn] } := by
    simp [Member.add_borrowed_book, hnot]
  have h3 : ({ book with
      available_copies := book.available_copies - 1 } : Book).return_copy =
      (true, book) := by
    have hlt : book.available_copies - 1 < book.total_copies := by omega
    simp [Book.return_copy, hlt, sub_add_cancel]
  have h4 : ({ member with
      borrowed_books := member.borrowed_books ++ [isbn] } :
        Member).remove_borrowed_book isbn = (true, member) := by
    simp only [Member.remove_borrowed_book]
    rw [if_pos (by simp)]
    rw [List.erase_append_right _ hnot]
    simp
  have hbooks : (fun k => if k = isbn then some book else s.books k) =
      s.books := by
    funext k
    by_cases hk : k = isbn
    · subst hk; simp [hb]
    · simp [hk]
  have hmembers :
      (fun k => if k = member_id then some member else s.members k) =
        s.members := by
    funext k
    by_cases hk : k = member_id
    · subst hk; simp [hm]
    · simp [hk]
  have hcond : (!member.is_active) = false := by rw [hact]; rfl
  simp only [LibraryState.borrow_book, hm, hb, hcond, Bool.not_true,
    Bool.false_eq_true, if_false, h1, h2, StoreState.record_borrowing,
    h3, h4, hbooks, hmembers]

/-- Witness for the amended C1 at a concrete state: member "M2" (who holds
nothing) borrows "B1" and the durable write fails. -/
def memberC1b : Member := Member.init 0 "M2" "Bob" "b@x" "2" "Addr2"

/-- The library `stateC1` with the extra member `memberC1b`. -/
def stateC1b : LibraryState :=
  { stateC1 with
    members := fun k =>
      if k = "M2" then some memberC1b else stateC1.members k }

/-- Witness for the amended C1. -/
theorem borrow_rollback_witness :
    stateC1b.borrow_book false 7 "M2" "B1" =
      (false, "Failed to record borrowing", stateC1b) :=
  borrow_rollback stateC1b 7 "M2" "B1" memberC1b bookC1 rfl rfl rfl
    (by decide) (by decide) (by decide)

/-! ## C5: no rollback on return-write failure -/

/-- C5: when the member holds the isbn and the durable write of the
return fails, `return_book` returns failure "Failed to record return"
while the in-memory mutations stay applied: the book keeps the
`return_copy` increment, the member's `borrowed_books` keeps the erase,
any positive fine stays added to `total_fines`, and the store is
unchanged. -/
theorem return_no_rollback (s : LibraryState) (now : Nat)
    (member_id isbn : String) (member : Member) (book : Book)
    (hm : s.members member_id = some member)
    (hb : s.books isbn = some book)
    (hheld : isbn ∈ member.borrowed_books) :
    (s.return_book false now member_id isbn).1 = false ∧
    (s.return_book false now member_id isbn).2.1 =
      "Failed to record return" ∧
    ((s.return_book false now member_id isbn).2.2.books isbn) =
      some book.return_copy.2 ∧
    ((s.return_book false now member_id isbn).2.2.members member_id).map
      Member.borrowed_books = some (member.borrowed_books.erase isbn) ∧
    ((s.return_book false now member_id isbn).2.2.members member_id).map
      Member.total_fines =
      some (if 0 < calculateFine s.db.records member_id isbn now then
          member.total_fines + calculateFine s.db.records member_id isbn now
        else member.total_fines) ∧
    (s.return_book false now member_id isbn).2.2.db = s.db := by
  have hrm : member.remove_borrowed_book isbn =
      (true, { member with
        borrowed_books := member.borrowed_books.erase isbn }) := by
    simp [Member.remove_borrowed_book, hheld]
  simp only [LibraryState.return_book, hm, hb, hrm, Bool.not_true,
    Bool.false_eq_true, if_false, StoreState.record_return]
  by_cases hf : 0 < calculateFine s.db.records member_id isbn now <;>
    simp [hf, Member.add_fine]

/-- Witness for C5: in `stateC1` (member "M1" holds "B1") a return whose
durable write fails keeps all in-memory mutations. -/
theorem return_no_rollback_witness :
    (stateC1.return_book false 0 "M1" "B1").1 = false ∧
    (stateC1.return_book false 0 "M1" "B1").2.1 =
      "Failed to record return" ∧
    ((stateC1.return_book false 0 "M1" "B1").2.2.books "B1") =
      some bookC1.return_copy.2 ∧
    ((stateC1.return_book false 0 "M1" "B1").2.2.members "M1").map
      Member.borrowed_books = some (memberC1.borrowed_books.erase "B1") ∧
    ((stateC1.return_book false 0 "M1" "B1").2.2.members "M1").map
      Member.total_fines =
      some (if 0 < calculateFine stateC1.db.records "M1" "B1" 0 then
          memberC1.total_fines + calculateFine stateC1.db.records "M1" "B1" 0
        else memberC1.total_fines) ∧
    (stateC1.return_book false 0 "M1" "B1").2.2.db = stateC1.db :=
  return_no_rollback stateC1 0 "M1" "B1" memberC1 bookC1 rfl rfl
    (by decide)

/-! ## C10: no double-borrow check -/

lemma openCount_append (l : List BorrowRecord) (r : BorrowRecord)
    (member_id isbn : String) :
    openCount (l ++ [r]) member_id isbn =
      openCount l member_id isbn +
        (if r.matchesOpen member_id isbn then 1 else 0) := by
  simp only [openCount, openRecordsFor, List.filter_append]
  split <;> simp_all

/-- C10: `borrow_book` never checks `borrowed_books`: an active member who
already holds the isbn (exactly once) borrows it again successfully
whenever a copy is available and the write succeeds — `available_copies`
is decremented again, a second open record is appended to the store, and
`borrowed_books` still lists the isbn exactly once (the idempotent add is
a no-op). -/
theorem double_borrow (s : LibraryState) (now : Nat)
    (member_id isbn : String) (member : Member) (book : Book)
    (hm : s.members member_id = some member)
    (hb : s.books isbn = some book)
    (hact : member.is_active = true)
    (hcount : member.borrowed_books.count isbn = 1)
    (havail : 0 < book.available_copies) :
    (s.borrow_book true now member_id isbn).1 = true ∧
    ((s.borrow_book true now member_id isbn).2.2.books isbn).map
      Book.available_copies = some (book.available_copies - 1) ∧
    (s.borrow_book true now member_id isbn).2.2.db.records =
      s.db.records ++
        [{ record_id := s.db.next_record_id, member_id := member_id
           isbn := isbn, borrow_date := now
           due_date := now + BORROWING_PERIOD_DAYS * secondsPerDay
           return_date := none, fine_paid := 0 }] ∧
    openCount (s.borrow_book true now member_id isbn).2.2.db.records
        member_id isbn =
      openCount s.db.records member_id isbn + 1 ∧
    ((s.borrow_book true now member_id isbn).2.2.members member_id).map
      (fun m => m.borrowed_books.count isbn) = some 1 := by
  have hheld : isbn ∈ member.borrowed_books :=
    List.count_pos_iff.mp (by omega)
  have hadd : member.add_borrowed_book isbn = member := by
    simp [Member.add_borrowed_book, hheld]
  have h1 : book.borrow_copy =
      (true, { book with
        available_copies := book.available_copies - 1 }) := by
    simp [Book.borrow_copy, havail]
  have hcond : (!member.is_active) = false := by rw [hact]; rfl
  refine ⟨?_, ?_, ?_, ?_, ?_⟩ <;>
    simp only [LibraryState.borrow_book, hm, hb, hcond, Bool.not_true,
      Bool.false_eq_true, if_false, h1, hadd,
      StoreState.record_borrowing, if_true] <;>
    simp [openCount_append, BorrowRecord.matchesOpen, hcount]

/-- Witness for C10: in `stateC2` below, "M1" already holds the only
listed copy record of "B1" and borrows it again. -/
def stateC2 : LibraryState :=
  { books := fun k =>
      if k = "B1" then some (Book.init 0 "B1" "T" "A" "P" 2020 2) else none
    members := fun k => if k = "M1" then some memberC1 else none
    db := StoreState.empty }

/-- Witness for C10. -/
theorem double_borrow_witness :
    (stateC2.borrow_book true 5 "M1" "B1").1 = true ∧
    ((stateC2.borrow_book true 5 "M1" "B1").2.2.books "B1").map
      Book.available_copies =
      some ((Book.init 0 "B1" "T" "A" "P" 2020 2).available_copies - 1) ∧
    (stateC2.borrow_book true 5 "M1" "B1").2.2.db.records =
      stateC2.db.records ++
        [{ record_id := stateC2.db.next_record_id, member_id := "M1"
           isbn := "B1", borrow_date := 5
           due_date := 5 + BORROWING_PERIOD_DAYS * secondsPerDay
           return_date := none, fine_paid := 0 }] ∧
    openCount (stateC2.borrow_book true 5 "M1" "B1").2.2.db.records
        "M1" "B1" =
      openCount stateC2.db.records "M1" "B1" + 1 ∧
    ((stateC2.borrow_book true 5 "M1" "B1").2.2.members "M1").map
      (fun m => m.borrowed_books.count "B1") = some 1 :=
  double_borrow stateC2 5 "M1" "B1" memberC1
    (Book.init 0 "B1" "T" "A" "P" 2020 2) rfl rfl rfl (by decide)
    (by decide)

/-! ## C6: what a successful return writes to the store -/

/-- A book "B1" with 2 copies, none available (both on loan). -/
def bookC6 : Book :=
  { Book.init 0 "B1" "T" "A" "P" 2020 2 with available_copies := 0 }

/-- Two open records for the pair ("M1", "B1"): record 1 (borrowed at 10,
due 20) and the more recent record 2 (borrowed at 30, due 40). -/
def recordsC6 : List BorrowRecord :=
  [{ record_id := 1, member_id := "M1", isbn := "B1", borrow_date := 10
     due_date := 20, return_date := none, fine_paid := 0 },
   { record_id := 2, member_id := "M1", isbn := "B1", borrow_date := 30
     due_date := 40, return_date := none, fine_paid := 0 }]

/-- A library where "M1" holds "B1" and the store has the two open
records of `recordsC6`. -/
def stateC6 : LibraryState :=
  { books := fun k => if k = "B1" then some bookC6 else none
    members := fun k => if k = "M1" then some memberC1 else none
    db := { StoreState.empty with
            records := recordsC6, next_record_id := 3 } }

/-- C6 fails as stated: in `stateC6` the most recent open record for
("M1", "B1") is record 2, yet a successful `return_book` also rewrites
record 1 — the SQL `UPDATE ... WHERE return_date IS NULL` has no
`LIMIT` — so a record other than the most recent open one does not stay
unchanged. -/
theorem return_most_recent_counterexample :
    (stateC6.return_book true 40 "M1" "B1").1 = true ∧
    (mostRecentOpen stateC6.db.records "M1" "B1").map
      BorrowRecord.record_id = some 2 ∧
    ((stateC6.return_book true 40 "M1" "B1").2.2.db.records.find?
      (fun r => r.record_id == 1)).map BorrowRecord.return_date =
      some (some 40) ∧
    (stateC6.db.records.find? (fun r => r.record_id == 1)).map
      BorrowRecord.return_date = some none := by
  refine ⟨rfl, rfl, ?_, rfl⟩
  rfl

/-- C6 amended: a successful `return_book` sets `return_date` (to the
return time) and `fine_paid` (to the computed fine) on **every** open
borrowing record of the (member, isbn) pair — when exactly one open
record exists, that is precisely the most recent one — and leaves every
record that is closed or belongs to a different pair unchanged. -/
theorem return_closes_open_records (s : LibraryState) (now : Nat)
    (member_id isbn : String) (member : Member) (book : Book)
    (hm : s.members member_id = some member)
    (hb : s.books isbn = some book)
    (hheld : isbn ∈ member.borrowed_books) :
    (s.return_book true now member_id isbn).1 = true ∧
    (s.return_book true now member_id isbn).2.2.db.records =
      s.db.records.map (fun r =>
        if r.matchesOpen member_id isbn then
          { r with return_date := some now
                   fine_paid := calculateFine s.db.records member_id isbn now }
        else r) ∧
    (∀ r : BorrowRecord, r.matchesOpen member_id isbn = false →
      (if r.matchesOpen member_id isbn then
          { r with return_date := some now
                   fine_paid := calculateFine s.db.records member_id isbn now }
        else r) = r) := by
  have hrm : member.remove_borrowed_book isbn =
      (true, { member with
        borrowed_books := member.borrowed_books.erase isbn }) := by
    simp [Member.remove_borrowed_book, hheld]
  refine ⟨?_, ?_, ?_⟩
  · simp only [LibraryState.return_book, hm, hb, hrm, Bool.not_true,
      Bool.false_eq_true, if_false, StoreState.record_return, if_true]
  · simp only [LibraryState.return_book, hm, hb, hrm, Bool.not_true,
      Bool.false_eq_true, if_false, StoreState.record_return, if_true]
  · intro r hr
    simp [hr]

/-- Witness for the amended C6, at `stateC6` with its two open records. -/
theorem return_closes_open_records_witness :
    (stateC6.return_book true 40 "M1" "B1").1 = true ∧
    (stateC6.return_book true 40 "M1" "B1").2.2.db.records =
      stateC6.db.records.map (fun r =>
        if r.matchesOpen "M1" "B1" then
          { r with return_date := some 40
                   fine_paid := calculateFine stateC6.db.records "M1" "B1" 40 }
        else r) ∧
    (∀ r : BorrowRecord, r.matchesOpen "M1" "B1" = false →
      (if r.matchesOpen "M1" "B1" then
          { r with return_date := some 40
                   fine_paid := calculateFine stateC6.db.records "M1" "B1" 40 }
        else r) = r) :=
  return_closes_open_records stateC6 40 "M1" "B1" memberC1 bookC6 rfl rfl
    (by decide)

/-! ## C2: open records per pair over reachable states -/

lemma matchesOpen_iff (r : BorrowRecord) (member_id isbn : String) :
    r.matchesOpen member_id isbn = true ↔
      r.member_id = member_id ∧ r.isbn = isbn ∧ r.return_date = none := by
  simp [BorrowRecord.matchesOpen, and_assoc]

lemma openCount_cons (r : BorrowRecord) (l : List BorrowRecord)
    (member_id isbn : String) :
    openCount (r :: l) member_id isbn =
      (if r.matchesOpen member_id isbn then 1 else 0) +
        openCount l member_id isbn := by
  simp only [openCount, openRecordsFor, List.filter_cons]
  split <;> simp [Nat.add_comm]

lemma openCount_map_close (l : List BorrowRecord)
    (member_id isbn : String) (now : Nat) (fine : ℚ)
    (mid2 isbn2 : String) :
    openCount (l.map (fun r =>
        if r.matchesOpen member_id isbn then
          { r with return_date := some now, fine_paid := fine }
        else r)) mid2 isbn2 =
      if mid2 = member_id ∧ isbn2 = isbn then 0
      else openCount l mid2 isbn2 := by
  induction l with
  | nil => simp [openCount, openRecordsFor]
  | cons r l ih =>
      simp only [List.map_cons, openCount_cons, ih]
      have hclosed :
          ({ r with return_date := some now, fine_paid := fine } :
            BorrowRecord).matchesOpen mid2 isbn2 = false := by
        simp [BorrowRecord.matchesOpen]
      by_cases hpair : mid2 = member_id ∧ isbn2 = isbn
      · obtain ⟨rfl, rfl⟩ := hpair
        by_cases hr : r.matchesOpen mid2 isbn2 = true
        · simp [hr, hclosed]
        · simp [hr]
      · by_cases hr : r.matchesOpen member_id isbn = true
        · have hr2 : r.matchesOpen mid2 isbn2 = false := by
            rw [matchesOpen_iff] at hr
            obtain ⟨h1, h2, h3⟩ := hr
            by_contra hc
            rw [Bool.not_eq_false, matchesOpen_iff] at hc
            exact hpair ⟨hc.1.symm.trans h1, hc.2.1.symm.trans h2⟩
          simp [hr, hclosed, hr2, hpair]
        · simp [hr, hpair]

lemma add_book_records (s : LibraryState) (now : Nat)
    (isbn title author publisher : String) (year copies : Int) :
    ((s.add_book now isbn title author publisher year copies).2).db.records =
      s.db.records := by
  by_cases h1 : (s.books isbn).isSome
  · simp [LibraryState.add_book, h1]
  · by_cases h2 : (s.db.book_rows.any fun b => b.isbn == isbn) = true
    · simp [LibraryState.add_book, StoreState.add_book, h1, h2]
    · simp [LibraryState.add_book, StoreState.add_book, h1, h2]

lemma add_member_records (s : LibraryState) (now : Nat)
    (member_id name email phone address : String) :
    ((s.add_member now member_id name email phone address).2).db.records =
      s.db.records := by
  by_cases h1 : (s.members member_id).isSome
  · simp [LibraryState.add_member, h1]
  · by_cases h2 :
        (s.db.member_rows.any fun m => m.member_id == member_id) = true
    · simp [LibraryState.add_member, StoreState.add_member, h1, h2]
    · simp [LibraryState.add_member, StoreState.add_member, h1, h2]

/-- The open borrowing record `borrow_book` writes for a pair. -/
def newBorrowRecord (db : StoreState) (now : Nat)
    (member_id isbn : String) : BorrowRecord :=
  { record_id := db.next_record_id, member_id := member_id, isbn := isbn
    borrow_date := now
    due_date := now + BORROWING_PERIOD_DAYS * secondsPerDay
    return_date := none, fine_paid := 0 }

lemma borrow_book_records (s : LibraryState) (dbOk : Bool) (now : Nat)
    (member_id isbn : String) :
    ((s.borrow_book dbOk now member_id isbn).2.2).db.records =
        s.db.records ∨
      ((s.borrow_book dbOk now member_id isbn).2.2).db.records =
        s.db.records ++ [newBorrowRecord s.db now member_id isbn] := by
  cases hmem : s.members member_id with
  | none => left; simp [LibraryState.borrow_book, hmem]
  | some member =>
    cases hbook : s.books isbn with
    | none => left; simp [LibraryState.borrow_book, hmem, hbook]
    | some book =>
      by_cases hact : member.is_active = true
      · by_cases hav : 0 < book.available_copies
        · cases dbOk
          · left
            simp [LibraryState.borrow_book, hmem, hbook, hact,
              Book.borrow_copy, hav, StoreState.record_borrowing]
          · right
            simp [LibraryState.borrow_book, hmem, hbook, hact,
              Book.borrow_copy, hav, StoreState.record_borrowing,
              newBorrowRecord]
        · left
          simp [LibraryState.borrow_book, hmem, hbook, hact,
            Book.borrow_copy, hav]
      · left
        simp [LibraryState.borrow_book, hmem, hbook, hact]

lemma return_book_records (s : LibraryState) (dbOk : Bool) (now : Nat)
    (member_id isbn : String) :
    ((s.return_book dbOk now member_id isbn).2.2).db.records =
        s.db.records ∨
      ((s.return_book dbOk now member_id isbn).2.2).db.records =
        s.db.records.map (fun r =>
          if r.matchesOpen member_id isbn then
            { r with return_date := some now
                     fine_paid :=
                       calculateFine s.db.records member_id isbn now }
          else r) := by
  cases hmem : s.members member_id with
  | none => left; simp [LibraryState.return_book, hmem]
  | some member =>
    cases hbook : s.books isbn with
    | none => left; simp [LibraryState.return_book, hmem, hbook]
    | some book =>
      by_cases hheld : isbn ∈ member.borrowed_books
      · cases dbOk
        · left
          simp [LibraryState.return_book, hmem, hbook,
            Member.remove_borrowed_book, hheld, StoreState.record_return]
        · right
          simp [LibraryState.return_book, hmem, hbook,
            Member.remove_borrowed_book, hheld, StoreState.record_return]
      · left
        simp [LibraryState.return_book, hmem, hbook,
          Member.remove_borrowed_book, hheld]

/-- The states reachable from a fresh library by the four Library Core
operations with arbitrary arguments, times and store behaviour. -/
inductive Reachable : LibraryState → Prop
  | init : Reachable LibraryState.initial
  | add_book (s : LibraryState) (now : Nat)
      (isbn title author publisher : String) (year copies : Int) :
      Reachable s →
      Reachable (s.add_book now isbn title author publisher year copies).2
  | add_member (s : LibraryState) (now : Nat)
      (member_id name email phone address : String) :
      Reachable s →
      Reachable (s.add_member now member_id name email phone address).2
  | borrow (s : LibraryState) (dbOk : Bool) (now : Nat)
      (member_id isbn : String) :
      Reachable s → Reachable (s.borrow_book dbOk now member_id isbn).2.2
  | ret (s : LibraryState) (dbOk : Bool) (now : Nat)
      (member_id isbn : String) :
      Reachable s → Reachable (s.return_book dbOk now member_id isbn).2.2

/-- Reachability restricted so that `borrow_book` is never invoked for a
pair that already has an open record in the store. -/
inductive ReachableGuarded : LibraryState → Prop
  | init : ReachableGuarded LibraryState.initial
  | add_book (s : LibraryState) (now : Nat)
      (isbn title author publisher : String) (year copies : Int) :
      ReachableGuarded s →
      ReachableGuarded
        (s.add_book now isbn title author publisher year copies).2
  | add_member (s : LibraryState) (now : Nat)
      (member_id name email phone address : String) :
      ReachableGuarded s →
      ReachableGuarded
        (s.add_member now member_id name email phone address).2
  | borrow (s : LibraryState) (dbOk : Bool) (now : Nat)
      (member_id isbn : String) :
      ReachableGuarded s →
      openCount s.db.records member_id isbn = 0 →
      ReachableGuarded (s.borrow_book dbOk now member_id isbn).2.2
  | ret (s : LibraryState) (dbOk : Bool) (now : Nat)
      (member_id isbn : String) :
      ReachableGuarded s →
      ReachableGuarded (s.return_book dbOk now member_id isbn).2.2

/-- The double-borrow chain: add "B1" (2 copies), add "M1", then "M1"
borrows "B1" twice with every durable write succeeding. -/
def stateB1 : LibraryState :=
  (LibraryState.initial.add_book 0 "B1" "T" "A" "P" 2020 2).2

def stateB2 : LibraryState :=
  (stateB1.add_member 0 "M1" "Alice" "a@x" "1" "Addr").2

def stateB3 : LibraryState := (stateB2.borrow_book true 1 "M1" "B1").2.2

def stateB4 : LibraryState := (stateB3.borrow_book true 2 "M1" "B1").2.2

/-- C2 fails as stated: `stateB4` is reachable by
addBook/addMember/borrow/borrow, and the pair ("M1", "B1") then has two
open borrowing records in the store. -/
theorem open_record_invariant_counterexample :
    Reachable stateB4 ∧ openCount stateB4.db.records "M1" "B1" = 2 := by
  constructor
  · exact .borrow stateB3 true 2 "M1" "B1"
      (.borrow stateB2 true 1 "M1" "B1"
        (.add_member stateB1 0 "M1" "Alice" "a@x" "1" "Addr"
          (.add_book LibraryState.initial 0 "B1" "T" "A" "P" 2020 2
            .init)))
  · rfl

/-- C2 amended: in every state reachable by sequences of the four Library
Core operations in which `borrow_book` is never invoked for a pair that
already has an open record, at most one borrowing record per
(member_id, isbn) pair is open.  (Without that restriction the invariant
fails, as the counterexample's double borrow shows.) -/
theorem open_record_invariant (s : LibraryState)
    (h : ReachableGuarded s) (member_id isbn : String) :
    openCount s.db.records member_id isbn ≤ 1 := by
  induction h with
  | init => simp [LibraryState.initial, loadFromDb, StoreState.empty,
      openCount, openRecordsFor]
  | add_book s now isbn2 title author publisher year copies h ih =>
      rw [add_book_records]; exact ih
  | add_member s now mid2 name email phone address h ih =>
      rw [add_member_records]; exact ih
  | borrow s dbOk now mid2 isbn2 h hguard ih =>
      rcases borrow_book_records s dbOk now mid2 isbn2 with heq | heq
      · rw [heq]; exact ih
      · rw [heq, openCount_append]
        by_cases hmatch :
            (newBorrowRecord s.db now mid2 isbn2).matchesOpen
              member_id isbn = true
        · rw [matchesOpen_iff] at hmatch
          obtain ⟨h1, h2, -⟩ := hmatch
          simp only [newBorrowRecord] at h1 h2
          subst h1; subst h2
          simp [hguard, matchesOpen_iff, newBorrowRecord]
        · rw [Bool.not_eq_true] at hmatch
          simp [hmatch, ih]
  | ret s dbOk now mid2 isbn2 h ih =>
      rcases return_book_records s dbOk now mid2 isbn2 with heq | heq
      · rw [heq]; exact ih
      · rw [heq, openCount_map_close]
        split
        · omega
        · exact ih

/-- Witness for the amended C2: the guarded chain add "B1", add "M1",
borrow once (the pair has no open record yet) keeps the invariant. -/
theorem open_record_invariant_witness :
    ReachableGuarded stateB3 ∧
      openCount stateB3.db.records "M1" "B1" ≤ 1 := by
  have h : ReachableGuarded stateB3 :=
    .borrow stateB2 true 1 "M1" "B1"
      (.add_member stateB1 0 "M1" "Alice" "a@x" "1" "Addr"
        (.add_book LibraryState.initial 0 "B1" "T" "A" "P" 2020 2
          .init)) rfl
  exact ⟨h, open_record_invariant stateB3 h "M1" "B1"⟩

/-! ## C7: borrow immediately followed by return -/

lemma foldl_pickMoreRecent_mem (l : List BorrowRecord)
    (acc : Option BorrowRecord) :
    l.foldl pickMoreRecent acc = acc ∨
      ∃ r ∈ l, l.foldl pickMoreRecent acc = some r := by
  induction l generalizing acc with
  | nil => left; rfl
  | cons r l ih =>
      rcases ih (pickMoreRecent acc r) with h | ⟨b, hb, h⟩
      · rw [List.foldl_cons, h]
        cases acc with
        | none => right; exact ⟨r, List.mem_cons_self r l, rfl⟩
        | some b =>
            simp only [pickMoreRecent]
            split
            · right; exact ⟨r, List.mem_cons_self r l, rfl⟩
            · left; rfl
      · right
        exact ⟨b, List.mem_cons_of_mem r hb, by rw [List.foldl_cons]; exact h⟩

lemma mostRecentOpen_append_newest (records : List BorrowRecord)
    (member_id isbn : String) (x : BorrowRecord)
    (hx : x.matchesOpen member_id isbn = true)
    (hmax : ∀ b ∈ openRecordsFor records member_id isbn,
      x.moreRecent b = true) :
    mostRecentOpen (records ++ [x]) member_id isbn = some x := by
  unfold mostRecentOpen
  have hfilter : openRecordsFor (records ++ [x]) member_id isbn =
      openRecordsFor records member_id isbn ++ [x] := by
    simp [openRecordsFor, List.filter_append, hx]
  rw [hfilter, List.foldl_append]
  rcases foldl_pickMoreRecent_mem
      (openRecordsFor records member_id isbn) none with h | ⟨b, hb, h⟩
  · rw [h]; rfl
  · rw [h]
    simp [pickMoreRecent, hmax b hb]

/-- The full result of a successful `borrow_book` (all checks pass and
the durable write succeeds). -/
lemma borrow_book_success (s : LibraryState) (now : Nat)
    (member_id isbn : String) (member : Member) (book : Book)
    (hm : s.members member_id = some member)
    (hb : s.books isbn = some book)
    (hact : member.is_active = true)
    (havail : 0 < book.available_copies) :
    s.borrow_book true now member_id isbn =
      (true, "Book borrowed successfully",
        { books := fun k =>
            if k = isbn then
              some { book with
                available_copies := book.available_copies - 1 }
            else s.books k
          members := fun k =>
            if k = member_id then some (member.add_borrowed_book isbn)
            else s.members k
          db := { s.db with
            records := s.db.records ++
              [newBorrowRecord s.db now member_id isbn]
            next_record_id := s.db.next_record_id + 1 } }) := by
  have h1 : book.borrow_copy =
      (true, { book with
        available_copies := book.available_copies - 1 }) := by
    simp [Book.borrow_copy, havail]
  have hcond : (!member.is_active) = false := by rw [hact]; rfl
  simp only [LibraryState.borrow_book, hm, hb, hcond, Bool.not_true,
    Bool.false_eq_true, if_false, h1, StoreState.record_borrowing,
    if_true, newBorrowRecord]

/-- C7: an active member who does not hold the isbn borrows an available
book and returns it at the same instant (all store records borrowed no
later than `now`, with fresh auto-increment ids): both operations
succeed, the fine is 0, `total_fines` is unchanged and
`available_copies` returns to its pre-borrow value. -/
theorem borrow_return_roundtrip (s : LibraryState) (now : Nat)
    (member_id isbn : String) (member : Member) (book : Book)
    (hm : s.members member_id = some member)
    (hb : s.books isbn = some book)
    (hact : member.is_active = true)
    (havail : 0 < book.available_copies)
    (hle : book.available_copies ≤ book.total_copies)
    (hnot : isbn ∉ member.borrowed_books)
    (hdates : ∀ r ∈ s.db.records, r.matchesOpen member_id isbn = true →
      r.borrow_date ≤ now)
    (hids : ∀ r ∈ s.db.records, r.record_id < s.db.next_record_id) :
    (s.borrow_book true now member_id isbn).1 = true ∧
    (((s.borrow_book true now member_id isbn).2.2).return_book true now
      member_id isbn).1 = true ∧
    calculateFine ((s.borrow_book true now member_id isbn).2.2).db.records
      member_id isbn now = 0 ∧
    ((((s.borrow_book true now member_id isbn).2.2).return_book true now
        member_id isbn).2.2.members member_id).map Member.total_fines =
      some member.total_fines ∧
    ((((s.borrow_book true now member_id isbn).2.2).return_book true now
        member_id isbn).2.2.books isbn).map Book.available_copies =
      some book.available_copies := by
  have hsucc := borrow_book_success s now member_id isbn member book
    hm hb hact havail
  have hm1 : member.add_borrowed_book isbn =
      { member with
        borrowed_books := member.borrowed_books ++ [isbn] } := by
    simp [Member.add_borrowed_book, hnot]
  have hs1m : (s.borrow_book true now member_id isbn).2.2.members
      member_id =
      some { member with
        borrowed_books := member.borrowed_books ++ [isbn] } := by
    rw [hsucc, ← hm1]; simp
  have hs1b : (s.borrow_book true now member_id isbn).2.2.books isbn =
      some { book with
        available_copies := book.available_copies - 1 } := by
    rw [hsucc]; simp
  have hs1r : (s.borrow_book true now member_id isbn).2.2.db.records =
      s.db.records ++ [newBorrowRecord s.db now member_id isbn] := by
    rw [hsucc]
  have hfine : calculateFine
      ((s.borrow_book true now member_id isbn).2.2).db.records
      member_id isbn now = 0 := by
    rw [hs1r]
    unfold calculateFine
    rw [mostRecentOpen_append_newest]
    · simp [newBorrowRecord]
    · simp [newBorrowRecord, BorrowRecord.matchesOpen]
    · intro b hbmem
      have hmem2 := List.mem_filter.mp hbmem
      have hd := hdates b hmem2.1 hmem2.2
      have hi := hids b hmem2.1
      simp only [BorrowRecord.moreRecent, newBorrowRecord,
        Bool.or_eq_true, Bool.and_eq_true, decide_eq_true_eq,
        beq_iff_eq]
      omega
  have h3 : ({ book with
      available_copies := book.available_copies - 1 } : Book).return_copy =
      (true, book) := by
    have hlt : book.available_copies - 1 < book.total_copies := by omega
    simp [Book.return_copy, hlt, sub_add_cancel]
  have h4 : ({ member with
      borrowed_books := member.borrowed_books ++ [isbn] } :
        Member).remove_borrowed_book isbn = (true, member) := by
    simp only [Member.remove_borrowed_book]
    rw [if_pos (by simp)]
    rw [List.erase_append_right _ hnot]
    simp
  refine ⟨by rw [hsucc], ?_, hfine, ?_, ?_⟩ <;>
    simp only [LibraryState.return_book, hs1m, hs1b, h4, Bool.not_true,
      Bool.false_eq_true, if_false, h3, hfine, lt_self_iff_false,
      if_true, StoreState.record_return] <;>
    simp

/-- Witness for C7: member "M2" of `stateC1b` (holding nothing) borrows
the available copy of "B1" and returns it at the same instant. -/
theorem borrow_return_roundtrip_witness :
    (stateC1b.borrow_book true 7 "M2" "B1").1 = true ∧
    (((stateC1b.borrow_book true 7 "M2" "B1").2.2).return_book true 7
      "M2" "B1").1 = true ∧
    calculateFine ((stateC1b.borrow_book true 7 "M2" "B1").2.2).db.records
      "M2" "B1" 7 = 0 ∧
    ((((stateC1b.borrow_book true 7 "M2" "B1").2.2).return_book true 7
        "M2" "B1").2.2.members "M2").map Member.total_fines =
      some memberC1b.total_fines ∧
    ((((stateC1b.borrow_book true 7 "M2" "B1").2.2).return_book true 7
        "M2" "B1").2.2.books "B1").map Book.available_copies =
      some bookC1.available_copies :=
  borrow_return_roundtrip stateC1b 7 "M2" "B1" memberC1b bookC1 rfl rfl
    rfl (by decide) (by decide) (by decide) (by simp [stateC1b, stateC1,
      StoreState.empty]) (by simp [stateC1b, stateC1, StoreState.empty])

end LibraryMgmt
